import Mathlib

/-
A verification development for the FastAPI product backend in `src/main.py`.

The backend is embedded shallowly:
* a MongoDB-style document is an ordered association list of string keys and
  values (Python dicts keep insertion order; assignment replaces an existing
  key in place and appends a fresh key at the end);
* the `product` collection is a list of documents in insertion order;
* the store handle `db` obtained from `from database import db` is
  `Option Coll`: `none` models `db is None`, and subscripting `None` raises
  the usual `TypeError`;
* store-assigned ObjectIds are supplied by a generator parameter `gen`;
  freshness and well-formedness of generated ids (guarantees of the external
  store) appear as hypotheses of the theorems;
* each HTTP handler is split into a body (the `try` block, returning either a
  value or a Python exception) and a boundary that mirrors the handler's
  `except` clauses, producing the final HTTP outcome.
-/

namespace Backend

/-- Values stored in document fields: Python None, bool, number, string,
BSON ObjectId (carried as its canonical 24-hex rendering), and a list of
strings (used only by the diagnostics report). -/
inductive Value where
  | vNull
  | vBool (b : Bool)
  | vNum (q : Rat)
  | vStr (s : String)
  | vOid (o : String)
  | vStrList (xs : List String)
deriving DecidableEq

/-- A document: ordered key-value pairs, as a Python dict. -/
abbrev Doc := List (String × Value)

/-- The `product` collection, documents in insertion order. -/
abbrev Coll := List Doc

/-- Dict lookup: the value at the first occurrence of the key, if any. -/
def docGet (d : Doc) (k : String) : Option Value :=
  match d with
  | [] => none
  | kv :: rest => if kv.1 = k then some kv.2 else docGet rest k

/-- Dict assignment `d[k] = v`: replace the first occurrence of the key in
place, else append the new pair at the end. -/
def docSet (d : Doc) (k : String) (v : Value) : Doc :=
  match d with
  | [] => [(k, v)]
  | kv :: rest => if kv.1 = k then (k, v) :: rest else kv :: docSet rest k v

/-- Dict `pop(k)`: remove the key (all occurrences; dict keys are unique). -/
def docErase (d : Doc) (k : String) : Doc :=
  match d with
  | [] => []
  | kv :: rest => if kv.1 = k then docErase rest k else kv :: docErase rest k

/-- Python truthiness of a field value. -/
def truthy : Value → Bool
  | .vNull => false
  | .vBool b => b
  | .vNum q => decide (q ≠ 0)
  | .vStr s => decide (s ≠ "")
  | .vOid _ => true
  | .vStrList xs => decide (xs ≠ [])

/-- Python `str` of a field value, as used on `_id` values; `str` of an
ObjectId is its 24-hex lowercase rendering, which the `vOid` constructor
carries directly. -/
def pyStr : Value → String
  | .vNull => "None"
  | .vBool b => if b then "True" else "False"
  | .vNum q => toString q
  | .vStr s => s
  | .vOid o => o
  | .vStrList _ => ""

/-- Hexadecimal digit test. -/
def isHexChar (c : Char) : Bool :=
  c.isDigit || (decide ('a' ≤ c) && decide (c ≤ 'f')) || (decide ('A' ≤ c) && decide (c ≤ 'F'))

/-- Modelled from the spec: `ObjectId.is_valid` on a path string — the
identifier is a 12-byte value in its canonical 24-hex-character textual
encoding (the bson driver is an external collaborator, §3 "Identity"). -/
def objectIdIsValid (s : String) : Bool :=
  decide (s.length = 24) && s.toList.all isHexChar

/-- Modelled from the spec: constructing an ObjectId from a hex string
normalizes it; ObjectIds compare by their 12 bytes, i.e. by the lowercase
form of the hex encoding. -/
def objectIdOfStr (s : String) : String :=
  String.mk (s.data.map Char.toLower)

/-- Modelled from the spec: `find_by_id` returns the first match or an
explicit absent signal (§4.1). -/
def find_one (coll : Coll) (oid : String) : Option Doc :=
  match coll with
  | [] => none
  | d :: rest => if docGet d "_id" = some (Value.vOid oid) then some d else find_one rest oid

/-- `_product_to_dict` (src/main.py:87-91): copy the document; if `_id` is
present and truthy, pop it and store its `str` under `id`. -/
def product_to_dict (doc : Doc) : Doc :=
  match docGet doc "_id" with
  | some v => if truthy v then docSet (docErase doc "_id") "id" (Value.vStr (pyStr v)) else doc
  | none => doc

/-- An HTTP error outcome: status code and detail string. -/
structure Err where
  status : Nat
  detail : String
deriving DecidableEq

/-- A Python exception in flight inside a handler body: either an
`HTTPException` or any other exception, carried by its message. -/
inductive PyExc where
  | http (status : Nat) (detail : String)
  | generic (msg : String)
deriving DecidableEq

instance {e a : Type} [DecidableEq e] [DecidableEq a] : DecidableEq (Except e a)
  | Except.error x, Except.error y =>
      if h : x = y then Decidable.isTrue (congrArg Except.error h)
      else Decidable.isFalse (fun hc => h (Except.error.inj hc))
  | Except.error _, Except.ok _ => Decidable.isFalse (fun hc => Except.noConfusion hc)
  | Except.ok _, Except.error _ => Decidable.isFalse (fun hc => Except.noConfusion hc)
  | Except.ok x, Except.ok y =>
      if h : x = y then Decidable.isTrue (congrArg Except.ok h)
      else Decidable.isFalse (fun hc => h (Except.ok.inj hc))

/-- Python `str` of an exception: starlette renders an `HTTPException` as
`"{status_code}: {detail}"`; other exceptions render their message. -/
def pyExcStr : PyExc → String
  | .http s d => toString s ++ ": " ++ d
  | .generic m => m

/-- The `except Exception as e: raise HTTPException(500, str(e))` boundary of
`list_products` and `create_product`: every exception, HTTP or not, becomes
a 500 whose detail is the exception's `str`. -/
def wrap_all {α : Type} : Except PyExc α → Except Err α
  | .ok a => .ok a
  | .error e => .error ⟨500, pyExcStr e⟩

/-- CPython message for subscripting `None` (`db["product"]` with `db = None`). -/
def noneSubscriptableMsg : String :=
  "\x27NoneType\x27 object is not subscriptable"

/-- CPython message for `dict(None)` (would arise in `_product_to_dict(None)`). -/
def noneIterableMsg : String :=
  "\x27NoneType\x27 object is not iterable"

/-- The validated creation body (`ProductCreate`, src/main.py:77-84). -/
structure ProductCreate where
  title : String
  description : Option String
  price : Rat
  category : String
  in_stock : Bool
  image : Option String
  badge : Option String
deriving DecidableEq

/-- An optional text field as a stored value. -/
def optStr : Option String → Value
  | none => Value.vNull
  | some s => Value.vStr s

/-- `product.model_dump()`: the body as a dict, fields in declaration order. -/
def ProductCreate.model_dump (p : ProductCreate) : Doc :=
  [("title", Value.vStr p.title),
   ("description", optStr p.description),
   ("price", Value.vNum p.price),
   ("category", Value.vStr p.category),
   ("in_stock", Value.vBool p.in_stock),
   ("image", optStr p.image),
   ("badge", optStr p.badge)]

/-- The four fixed demo records of `list_products` (src/main.py:101-138). -/
def seed_products : List Doc :=
  [[("title", Value.vStr "Aurora Cube Lamp"),
    ("description", Value.vStr "Futuristic RGB glass cube lamp with reactive glow."),
    ("price", Value.vNum 149),
    ("category", Value.vStr "Lighting"),
    ("in_stock", Value.vBool true),
    ("image", Value.vStr "https://images.unsplash.com/photo-1557264337-e8a93017fe92?q=80&w=1200&auto=format&fit=crop"),
    ("badge", Value.vStr "New")],
   [("title", Value.vStr "Nebula Headphones"),
    ("description", Value.vStr "Spatial audio with adaptive ANC in a sleek titanium finish."),
    ("price", Value.vNum 299),
    ("category", Value.vStr "Audio"),
    ("in_stock", Value.vBool true),
    ("image", Value.vStr "https://images.unsplash.com/photo-1518444082625-79a48bb0faaa?q=80&w=1200&auto=format&fit=crop"),
    ("badge", Value.vStr "Bestseller")],
   [("title", Value.vStr "Quantum Desk Mat"),
    ("description", Value.vStr "Soft-touch XL mat with nano-texture and underglow."),
    ("price", Value.vNum 59),
    ("category", Value.vStr "Accessories"),
    ("in_stock", Value.vBool true),
    ("image", Value.vStr "https://images.unsplash.com/photo-1516387938699-a93567ec168e?q=80&w=1200&auto=format&fit=crop"),
    ("badge", Value.vStr "Limited")],
   [("title", Value.vStr "Flux Mechanical Keyboard"),
    ("description", Value.vStr "Hot-swappable switches, per-key RGB, aluminum chassis."),
    ("price", Value.vNum 189),
    ("category", Value.vStr "Keyboards"),
    ("in_stock", Value.vBool true),
    ("image", Value.vStr "https://images.unsplash.com/photo-1517336714731-489689fd1ca8?q=80&w=1200&auto=format&fit=crop"),
    ("badge", Value.vNull)]]

/-- The seed loop `for p in seed_products: db["product"].insert_one(p)`:
each insert stores the record with the store-assigned id `gen i` for the
`i`-th record. -/
def insertSeeds (gen : Nat → String) : List Doc :=
  seed_products.enum.map (fun ia => docSet ia.2 "_id" (Value.vOid (gen ia.1)))

/-- Body of `list_products` (src/main.py:95-145): count the collection, seed
the four demo records when empty (the `db is None` check on line 139 sits
after the subscript on line 99, so a `None` store raises the `TypeError`
first), then return up to 24 documents, externalized. -/
def list_products_body (gen : Nat → String) (db : Option Coll) :
    Except PyExc (List Doc) × Option Coll :=
  match db with
  | none => (Except.error (PyExc.generic noneSubscriptableMsg), none)
  | some coll =>
    let coll1 := if coll.length = 0 then coll ++ insertSeeds gen else coll
    (Except.ok ((coll1.take 24).map product_to_dict), some coll1)

/-- `list_products` with its `except Exception` boundary (src/main.py:146-147). -/
def list_products (gen : Nat → String) (db : Option Coll) :
    Except Err (List Doc) × Option Coll :=
  ((wrap_all (list_products_body gen db).1), (list_products_body gen db).2)

/-- Body of `create_product` (src/main.py:151-159): reject a `None` store
with a 500 `HTTPException`, else insert the dumped body (the store assigns
id `gen 0`), re-read it by the inserted id and externalize it. -/
def create_product_body (gen : Nat → String) (db : Option Coll) (p : ProductCreate) :
    Except PyExc Doc × Option Coll :=
  match db with
  | none => (Except.error (PyExc.http 500 "Database not configured"), none)
  | some coll =>
    let coll2 := coll ++ [docSet p.model_dump "_id" (Value.vOid (gen 0))]
    match find_one coll2 (gen 0) with
    | some created => (Except.ok (product_to_dict created), some coll2)
    | none => (Except.error (PyExc.generic noneIterableMsg), some coll2)

/-- `create_product` with its `except Exception` boundary (src/main.py:160-161);
note it wraps even the deliberate 500 `HTTPException`, whose detail becomes
`"500: Database not configured"`. -/
def create_product (gen : Nat → String) (db : Option Coll) (p : ProductCreate) :
    Except Err Doc × Option Coll :=
  ((wrap_all (create_product_body gen db p).1), (create_product_body gen db p).2)

/-- A store operation observed at the adapter, for stating that a handler
did or did not touch the store. -/
inductive StoreOp where
  | countOp
  | insertOp (d : Doc)
  | findOp (oid : String)
deriving DecidableEq

/-- Body of `get_product` (src/main.py:165-173), with the adapter calls it
performs recorded on the side.  `fail` models a transport failure of the
`find_one` adapter call (external store, §4.1 "Failure semantics"): `some m`
makes the call raise with message `m`.  The identifier is validated before
any store access; a `None` store then fails on the subscript. -/
def get_product_body (db : Option Coll) (fail : Option String) (product_id : String) :
    Except PyExc Doc × List StoreOp :=
  if objectIdIsValid product_id then
    match db with
    | none => (Except.error (PyExc.generic noneSubscriptableMsg), [])
    | some coll =>
      match fail with
      | some m => (Except.error (PyExc.generic m), [StoreOp.findOp (objectIdOfStr product_id)])
      | none =>
        match find_one coll (objectIdOfStr product_id) with
        | none => (Except.error (PyExc.http 404 "Not found"), [StoreOp.findOp (objectIdOfStr product_id)])
        | some doc => (Except.ok (product_to_dict doc), [StoreOp.findOp (objectIdOfStr product_id)])
  else
    (Except.error (PyExc.http 400 "Invalid id"), [])

/-- `get_product` with its boundary (src/main.py:174-177): `except
HTTPException: raise` re-raises client errors unchanged; any other exception
becomes a 500 carrying the exception's message. -/
def get_product (db : Option Coll) (fail : Option String) (product_id : String) :
    Except Err Doc × List StoreOp :=
  match get_product_body db fail product_id with
  | (Except.ok d, ops) => (Except.ok d, ops)
  | (Except.error (PyExc.http s d), ops) => (Except.error ⟨s, d⟩, ops)
  | (Except.error (PyExc.generic m), ops) => (Except.error ⟨500, m⟩, ops)

/-- The store handle as seen by the diagnostics endpoint: the database has an
optional `name` attribute, and listing collection names either returns the
names or raises with a message. -/
structure DbHandle where
  hasName : Option String
  listCollections : Except String (List String)

/-- Outcome of `from database import db` inside `test_database`: the module
is missing (`ImportError`), importing it raises some other exception, or it
yields a handle that may be `None`. -/
inductive DbImport where
  | importError
  | raised (msg : String)
  | ok (db : Option DbHandle)

/-- Presence of the two checked environment variables. -/
structure Env where
  databaseUrl : Bool
  databaseName : Bool

/-- The default report dict built at the top of `test_database`. -/
def initialReport : Doc :=
  [("backend", Value.vStr "✅ Running"),
   ("database", Value.vStr "❌ Not Available"),
   ("database_url", Value.vNull),
   ("database_name", Value.vNull),
   ("connection_status", Value.vStr "Not Connected"),
   ("collections", Value.vStrList [])]

/-- `test_database` (src/main.py:29-71): build the default report, amend it
according to the import/connectivity outcome with every failure caught and
rendered as a status string (messages truncated to 50 characters), then
overwrite the two env-var fields from the environment. -/
def test_database (w : DbImport) (env : Env) : Doc :=
  let response : Doc := initialReport
  let response :=
    match w with
    | .importError =>
        docSet response "database"
          (Value.vStr "❌ Database module not found (run enable-database first)")
    | .raised m =>
        docSet response "database" (Value.vStr ("❌ Error: " ++ m.take 50))
    | .ok none =>
        docSet response "database" (Value.vStr "⚠️  Available but not initialized")
    | .ok (some h) =>
        let r := docSet response "database" (Value.vStr "✅ Available")
        let r := docSet r "database_url" (Value.vStr "✅ Configured")
        let r := docSet r "database_name"
          (Value.vStr (match h.hasName with | some n => n | none => "✅ Connected"))
        let r := docSet r "connection_status" (Value.vStr "Connected")
        match h.listCollections with
        | .ok cols =>
            docSet (docSet r "collections" (Value.vStrList (cols.take 10)))
              "database" (Value.vStr "✅ Connected & Working")
        | .error m =>
            docSet r "database" (Value.vStr ("⚠️  Connected but Error: " ++ m.take 50))
  docSet (docSet response "database_url"
      (Value.vStr (if env.databaseUrl then "✅ Set" else "❌ Not Set")))
    "database_name" (Value.vStr (if env.databaseName then "✅ Set" else "❌ Not Set"))

/-- The `/test` route outcome: the handler has no `raise` of its own and
catches every exception of its body, so it always returns its report. -/
def run_test (w : DbImport) (env : Env) : Except Err Doc :=
  Except.ok (test_database w env)

/-- Whether the diagnostics world is one of the internal-failure modes:
module missing, import raised, handle `None`, or collection listing raised. -/
def dbFailed : DbImport → Bool
  | .importError => true
  | .raised _ => true
  | .ok none => true
  | .ok (some h) => match h.listCollections with | .error _ => true | .ok _ => false

/-- A status string that renders a failure (the report's error markers). -/
def indicatesError (s : String) : Bool :=
  List.isPrefixOf "❌".toList s.toList || List.isPrefixOf "⚠️".toList s.toList

/-- The code's condition for externalizing: the `_id` field is present and
truthy. -/
def idTruthy (doc : Doc) : Bool :=
  match docGet doc "_id" with
  | some v => truthy v
  | none => false

/-- A response object in externalized form: no `_id` field, and an `id`
field holding a well-formed identifier string. -/
def Externalized (d : Doc) : Prop :=
  docGet d "_id" = none ∧
    ∃ s, docGet d "id" = some (Value.vStr s) ∧ objectIdIsValid s = true

/-- A well-formed collection state: every stored document carries a
store-assigned, well-formed ObjectId under `_id` (§3 "Identity"). -/
def WFColl (coll : Coll) : Prop :=
  ∀ d ∈ coll, ∃ o, docGet d "_id" = some (Value.vOid o) ∧ objectIdIsValid o = true

/-- Substring test used to state what an error detail "indicates". -/
def strContainsB (s pat : String) : Bool :=
  s.toList.tails.any (fun t => pat.toList.isPrefixOf t)

/-- A concrete id generator used to instantiate the store's id supply in
witnesses: 23 zeros followed by the decimal digit, canonical for `i < 10`. -/
def demoGen (i : Nat) : String :=
  "00000000000000000000000" ++ toString i

/-- A concrete valid creation body used in witnesses. -/
def demoProduct : ProductCreate :=
  ⟨"Demo", none, 1, "Misc", true, none, none⟩

/-- A concrete stored document used in witnesses. -/
def demoDoc : Doc :=
  docSet demoProduct.model_dump "_id" (Value.vOid (demoGen 5))

theorem docGet_docSet_self (d : Doc) (k : String) (v : Value) :
    docGet (docSet d k v) k = some v := by
  induction d with
  | nil => simp [docSet, docGet]
  | cons kv rest ih =>
    by_cases h : kv.1 = k
    · simp [docSet, h, docGet]
    · simp [docSet, h, docGet, ih]

theorem docGet_docSet_ne (d : Doc) (k k2 : String) (v : Value) (h : k2 ≠ k) :
    docGet (docSet d k v) k2 = docGet d k2 := by
  induction d with
  | nil => simp [docSet, docGet, Ne.symm h]
  | cons kv rest ih =>
    by_cases hk : kv.1 = k
    · subst hk
      simp [docSet, docGet, Ne.symm h]
    · simp only [docSet, if_neg hk, docGet]
      by_cases hk2 : kv.1 = k2
      · simp [hk2]
      · simp [hk2, ih]

theorem docGet_docErase_self (d : Doc) (k : String) :
    docGet (docErase d k) k = none := by
  induction d with
  | nil => rfl
  | cons kv rest ih =>
    by_cases h : kv.1 = k
    · simp [docErase, h, ih]
    · simp [docErase, h, docGet, ih]

theorem docGet_docErase_ne (d : Doc) (k k2 : String) (h : k2 ≠ k) :
    docGet (docErase d k) k2 = docGet d k2 := by
  induction d with
  | nil => rfl
  | cons kv rest ih =>
    by_cases hk : kv.1 = k
    · subst hk
      simp [docErase, docGet, Ne.symm h, ih]
    · simp only [docErase, if_neg hk, docGet]
      by_cases hk2 : kv.1 = k2
      · simp [hk2]
      · simp [hk2, ih]

theorem product_to_dict_oid (doc : Doc) (o : String)
    (h : docGet doc "_id" = some (Value.vOid o)) :
    product_to_dict doc = docSet (docErase doc "_id") "id" (Value.vStr o) := by
  simp [product_to_dict, h, truthy, pyStr]

theorem product_to_dict_externalized (doc : Doc) (o : String)
    (h : docGet doc "_id" = some (Value.vOid o))
    (hv : objectIdIsValid o = true) :
    Externalized (product_to_dict doc) := by
  rw [product_to_dict_oid doc o h]
  refine ⟨?_, o, ?_, hv⟩
  · rw [docGet_docSet_ne _ _ _ _ (by decide : "_id" ≠ "id")]
    exact docGet_docErase_self doc "_id"
  · exact docGet_docSet_self _ _ _

theorem find_one_eq_none (coll : Coll) (oid : String)
    (h : ∀ d ∈ coll, docGet d "_id" ≠ some (Value.vOid oid)) :
    find_one coll oid = none := by
  induction coll with
  | nil => rfl
  | cons d rest ih =>
    simp only [find_one, if_neg (h d (by simp))]
    exact ih (fun d2 hd2 => h d2 (by simp [hd2]))

theorem find_one_append_last (coll : Coll) (oid : String) (d : Doc)
    (hfresh : ∀ x ∈ coll, docGet x "_id" ≠ some (Value.vOid oid))
    (hd : docGet d "_id" = some (Value.vOid oid)) :
    find_one (coll ++ [d]) oid = some d := by
  induction coll with
  | nil => simp [find_one, hd]
  | cons x rest ih =>
    simp only [List.cons_append, find_one, if_neg (hfresh x (by simp))]
    exact ih (fun y hy => hfresh y (by simp [hy]))

theorem find_one_mem (coll : Coll) (oid : String) (d : Doc)
    (h : find_one coll oid = some d) :
    d ∈ coll ∧ docGet d "_id" = some (Value.vOid oid) := by
  induction coll with
  | nil => cases h
  | cons x rest ih =>
    by_cases hx : docGet x "_id" = some (Value.vOid oid)
    · simp only [find_one, if_pos hx, Option.some.injEq] at h
      subst h
      exact ⟨by simp, hx⟩
    · simp only [find_one, if_neg hx] at h
      rcases ih h with ⟨hm, hid⟩
      exact ⟨by simp [hm], hid⟩

theorem model_dump_no_id (p : ProductCreate) :
    docGet p.model_dump "_id" = none := rfl

theorem inserted_doc_id (p : ProductCreate) (o : String) :
    docGet (docSet p.model_dump "_id" (Value.vOid o)) "_id" = some (Value.vOid o) := rfl

/-- C1: for every valid creation body, creating a product via POST
/api/products and then calling GET /api/products/{id} with the `id` field of
the creation response returns an object equal to the created object.  The
store's guarantees on the assigned identifier appear as hypotheses: it is a
canonical (lowercase) well-formed ObjectId rendering, fresh for the current
collection. -/
theorem create_then_get_round_trip
    (gen : Nat → String) (coll : Coll) (p : ProductCreate)
    (hvalid : objectIdIsValid (gen 0) = true)
    (hcanon : objectIdOfStr (gen 0) = gen 0)
    (hfresh : ∀ d ∈ coll, docGet d "_id" ≠ some (Value.vOid (gen 0))) :
    ∃ resp db2,
      create_product gen (some coll) p = (Except.ok resp, some db2) ∧
      docGet resp "id" = some (Value.vStr (gen 0)) ∧
      (get_product (some db2) none (gen 0)).1 = Except.ok resp := by
  have hfind : find_one (coll ++ [docSet p.model_dump "_id" (Value.vOid (gen 0))]) (gen 0) =
      some (docSet p.model_dump "_id" (Value.vOid (gen 0))) :=
    find_one_append_last coll (gen 0) _ hfresh (inserted_doc_id p (gen 0))
  refine ⟨product_to_dict (docSet p.model_dump "_id" (Value.vOid (gen 0))),
    coll ++ [docSet p.model_dump "_id" (Value.vOid (gen 0))], ?_, ?_, ?_⟩
  · simp [create_product, create_product_body, hfind, wrap_all]
  · rw [product_to_dict_oid _ (gen 0) (inserted_doc_id p (gen 0))]
    exact docGet_docSet_self _ _ _
  · simp [get_product, get_product_body, hvalid, hcanon, hfind]

/-- C1 witness: the round trip at a concrete generator, empty collection and
concrete creation body. -/
theorem create_then_get_round_trip_witness :
    objectIdIsValid (demoGen 0) = true ∧
    objectIdOfStr (demoGen 0) = demoGen 0 ∧
    (∃ resp db2,
      create_product demoGen (some []) demoProduct = (Except.ok resp, some db2) ∧
      docGet resp "id" = some (Value.vStr (demoGen 0)) ∧
      (get_product (some db2) none (demoGen 0)).1 = Except.ok resp) :=
  ⟨by decide, by decide,
    create_then_get_round_trip demoGen [] demoProduct (by decide) (by decide) (by simp)⟩

/-- C3: GET /api/products/{id} with a syntactically malformed identifier is a
400 client error, and no store operation is performed (the recorded adapter
trace is empty), for every store state and adapter disposition. -/
theorem get_invalid_id_400_no_store
    (db : Option Coll) (fail : Option String) (pid : String)
    (hinv : objectIdIsValid pid = false) :
    get_product db fail pid = (Except.error ⟨400, "Invalid id"⟩, []) := by
  simp [get_product, get_product_body, hinv]

/-- C3 witness: the malformed identifier `"abc"` against a configured store. -/
theorem get_invalid_id_400_no_store_witness :
    objectIdIsValid "abc" = false ∧
    get_product (some []) none "abc" = (Except.error ⟨400, "Invalid id"⟩, []) :=
  ⟨by decide, get_invalid_id_400_no_store (some []) none "abc" (by decide)⟩

/-- C5: the response of GET /api/products contains at most 24 product
objects, for every collection state. -/
theorem list_at_most_24
    (gen : Nat → String) (coll : Coll) (res : List Doc) (db2 : Option Coll)
    (h : list_products gen (some coll) = (Except.ok res, db2)) :
    res.length ≤ 24 := by
  by_cases hc : coll.length = 0
  · simp only [list_products, list_products_body, hc, if_pos, wrap_all, Prod.mk.injEq,
      Except.ok.injEq] at h
    rcases h with ⟨h1, -⟩
    subst h1
    simp [List.length_take]
  · simp only [list_products, list_products_body, hc, if_neg, if_false, wrap_all,
      Prod.mk.injEq, Except.ok.injEq] at h
    rcases h with ⟨h1, -⟩
    subst h1
    simp [List.length_take]

/-- C5 witness: a one-document collection lists one object, within the bound. -/
theorem list_at_most_24_witness :
    list_products demoGen (some [demoDoc]) =
        (Except.ok [product_to_dict demoDoc], some [demoDoc]) ∧
    [product_to_dict demoDoc].length ≤ 24 :=
  ⟨rfl, list_at_most_24 demoGen [demoDoc] [product_to_dict demoDoc] (some [demoDoc]) rfl⟩

/-- C8: GET /api/products/{id} with a well-formed identifier matching no
record in the collection returns a 404 not-found error (after a single
lookup). -/
theorem get_absent_404 (coll : Coll) (pid : String)
    (hvalid : objectIdIsValid pid = true)
    (habsent : ∀ d ∈ coll, docGet d "_id" ≠ some (Value.vOid (objectIdOfStr pid))) :
    get_product (some coll) none pid =
      (Except.error ⟨404, "Not found"⟩, [StoreOp.findOp (objectIdOfStr pid)]) := by
  have hfo := find_one_eq_none coll (objectIdOfStr pid) habsent
  simp [get_product, get_product_body, hvalid, hfo]

theorem insertSeeds_wf (gen : Nat → String)
    (hgen : ∀ i < 4, objectIdIsValid (gen i) = true) :
    WFColl (insertSeeds gen) := by
  intro d hd
  rw [show insertSeeds gen =
    [docSet (seed_products.get ⟨0, by decide⟩) "_id" (Value.vOid (gen 0)),
     docSet (seed_products.get ⟨1, by decide⟩) "_id" (Value.vOid (gen 1)),
     docSet (seed_products.get ⟨2, by decide⟩) "_id" (Value.vOid (gen 2)),
     docSet (seed_products.get ⟨3, by decide⟩) "_id" (Value.vOid (gen 3))] from rfl] at hd
  simp only [List.mem_cons, List.not_mem_nil, or_false] at hd
  rcases hd with h | h | h | h <;> subst h
  · exact ⟨gen 0, rfl, hgen 0 (by norm_num)⟩
  · exact ⟨gen 1, rfl, hgen 1 (by norm_num)⟩
  · exact ⟨gen 2, rfl, hgen 2 (by norm_num)⟩
  · exact ⟨gen 3, rfl, hgen 3 (by norm_num)⟩

/-- C2: every object returned by the list, get-by-id and create endpoints is
in externalized form: an `id` field holding a 24-hex identifier string, and
no `_id` field.  The store's guarantees appear as hypotheses: stored
documents carry well-formed assigned identifiers, as do freshly generated
ones. -/
theorem returned_objects_externalized
    (gen : Nat → String) (coll : Coll) (pid : String) (p : ProductCreate)
    (hcoll : WFColl coll)
    (hgen : ∀ i < 4, objectIdIsValid (gen i) = true) :
    (∀ res db2, list_products gen (some coll) = (Except.ok res, db2) →
      ∀ d ∈ res, Externalized d) ∧
    (∀ res db2, create_product gen (some coll) p = (Except.ok res, db2) →
      Externalized res) ∧
    (∀ res ops, get_product (some coll) none pid = (Except.ok res, ops) →
      Externalized res) := by
  refine ⟨?_, ?_, ?_⟩
  · intro res db2 h d hd
    have hWF1 : WFColl (if coll.length = 0 then coll ++ insertSeeds gen else coll) := by
      by_cases hc : coll.length = 0
      · rw [if_pos hc]
        intro x hx
        rcases List.mem_append.mp hx with hx1 | hx2
        · exact hcoll x hx1
        · exact insertSeeds_wf gen hgen x hx2
      · rw [if_neg hc]
        exact hcoll
    simp only [list_products, list_products_body, wrap_all, Prod.mk.injEq,
      Except.ok.injEq] at h
    rcases h with ⟨h1, -⟩
    subst h1
    rcases List.mem_map.mp hd with ⟨x, hx, rfl⟩
    have hxmem : x ∈ (if coll.length = 0 then coll ++ insertSeeds gen else coll) :=
      List.take_subset _ _ hx
    rcases hWF1 x hxmem with ⟨o, ho, hov⟩
    exact product_to_dict_externalized x o ho hov
  · intro res db2 h
    rcases hfo : find_one (coll ++ [docSet p.model_dump "_id" (Value.vOid (gen 0))]) (gen 0)
      with - | created
    · simp [create_product, create_product_body, hfo, wrap_all] at h
    · simp only [create_product, create_product_body, hfo, wrap_all, Prod.mk.injEq,
        Except.ok.injEq] at h
      rcases h with ⟨h1, -⟩
      subst h1
      rcases find_one_mem _ _ _ hfo with ⟨-, hid⟩
      exact product_to_dict_externalized created (gen 0) hid (hgen 0 (by norm_num))
  · intro res ops h
    cases hpv : objectIdIsValid pid with
    | false => simp [get_product, get_product_body, hpv] at h
    | true =>
      rcases hfo : find_one coll (objectIdOfStr pid) with - | doc
      · simp [get_product, get_product_body, hpv, hfo] at h
      · simp only [get_product, get_product_body, hpv, hfo, if_true, Prod.mk.injEq,
          Except.ok.injEq] at h
        rcases h with ⟨h1, -⟩
        subst h1
        rcases find_one_mem _ _ _ hfo with ⟨hmem, -⟩
        rcases hcoll doc hmem with ⟨o, ho, hov⟩
        exact product_to_dict_externalized doc o ho hov

/-- C2 witness: a one-document well-formed collection, concrete generator,
concrete lookup id and concrete creation body. -/
theorem returned_objects_externalized_witness :
    WFColl [demoDoc] ∧ (∀ i < 4, objectIdIsValid (demoGen i) = true) ∧
    ((∀ res db2, list_products demoGen (some [demoDoc]) = (Except.ok res, db2) →
        ∀ d ∈ res, Externalized d) ∧
     (∀ res db2, create_product demoGen (some [demoDoc]) demoProduct = (Except.ok res, db2) →
        Externalized res) ∧
     (∀ res ops, get_product (some [demoDoc]) none (demoGen 5) = (Except.ok res, ops) →
        Externalized res)) := by
  have hW : WFColl [demoDoc] := by
    intro d hd
    rw [List.mem_singleton] at hd
    subst hd
    exact ⟨demoGen 5, by decide, by decide⟩
  have hG : ∀ i < 4, objectIdIsValid (demoGen i) = true := by decide
  exact ⟨hW, hG,
    returned_objects_externalized demoGen [demoDoc] (demoGen 5) demoProduct hW hG⟩

/-- C4: listing on an empty collection seeds exactly the four fixed demo
records (their titles in order), a subsequent list returns at least those
four (externalized), and listing on a non-empty collection inserts nothing. -/
theorem list_seeding (gen gen2 : Nat → String) (coll : Coll) :
    (coll = [] →
      list_products gen (some coll) =
          (Except.ok ((insertSeeds gen).map product_to_dict), some (insertSeeds gen)) ∧
      (insertSeeds gen).map (fun d => docGet d "title") =
        [some (Value.vStr "Aurora Cube Lamp"), some (Value.vStr "Nebula Headphones"),
         some (Value.vStr "Quantum Desk Mat"), some (Value.vStr "Flux Mechanical Keyboard")] ∧
      (insertSeeds gen).length = 4 ∧
      list_products gen2 (some (insertSeeds gen)) =
          (Except.ok ((insertSeeds gen).map product_to_dict), some (insertSeeds gen)) ∧
      (∀ d ∈ insertSeeds gen, product_to_dict d ∈ (insertSeeds gen).map product_to_dict)) ∧
    (coll ≠ [] → (list_products gen (some coll)).2 = some coll) := by
  constructor
  · intro hc
    subst hc
    refine ⟨rfl, rfl, rfl, rfl, ?_⟩
    intro d hd
    exact List.mem_map_of_mem _ hd
  · intro hne
    have hlen : ¬ coll.length = 0 := fun h => hne (List.length_eq_zero.mp h)
    simp [list_products, list_products_body, hlen]

/-- C4 witness: the seeding round at a concrete generator. -/
theorem list_seeding_witness :
    list_products demoGen (some []) =
        (Except.ok ((insertSeeds demoGen).map product_to_dict), some (insertSeeds demoGen)) ∧
    (insertSeeds demoGen).map (fun d => docGet d "title") =
      [some (Value.vStr "Aurora Cube Lamp"), some (Value.vStr "Nebula Headphones"),
       some (Value.vStr "Quantum Desk Mat"), some (Value.vStr "Flux Mechanical Keyboard")] ∧
    (insertSeeds demoGen).length = 4 ∧
    list_products demoGen (some (insertSeeds demoGen)) =
        (Except.ok ((insertSeeds demoGen).map product_to_dict), some (insertSeeds demoGen)) ∧
    (∀ d ∈ insertSeeds demoGen, product_to_dict d ∈ (insertSeeds demoGen).map product_to_dict) :=
  (list_seeding demoGen demoGen []).1 rfl

/-- C6 counterexample: with the store unset (`db = None`), GET
/api/products/abc fails with 400 "Invalid id" — not with a 500 whose
message mentions "not configured" — so the claim fails for the get-by-id
endpoint. -/
theorem db_none_counterexample :
    (get_product none none "abc").1 = Except.error ⟨400, "Invalid id"⟩ ∧
    ¬ (∃ e, (get_product none none "abc").1 = Except.error e ∧ e.status = 500 ∧
        strContainsB e.detail "not configured" = true) := by
  have h1 : (get_product none none "abc").1 = Except.error ⟨400, "Invalid id"⟩ := by decide
  refine ⟨h1, ?_⟩
  rintro ⟨e, he, hs, -⟩
  rw [h1] at he
  injection he with he2
  rw [← he2] at hs
  exact absurd hs (by decide)

/-- C6 amended: with the store unset, create fails with 500 and detail
`"500: Database not configured"` (which mentions "not configured"); list
fails with 500 whose detail is the `TypeError` text for subscripting `None`
(which does not mention "not configured"); get fails with the same 500 when
the identifier is well-formed, and with 400 when it is malformed. -/
theorem db_none_behavior (gen : Nat → String) (p : ProductCreate)
    (fail : Option String) (pid : String) :
    (list_products gen none).1 = Except.error ⟨500, noneSubscriptableMsg⟩ ∧
    (create_product gen none p).1 = Except.error ⟨500, "500: Database not configured"⟩ ∧
    strContainsB "500: Database not configured" "not configured" = true ∧
    strContainsB noneSubscriptableMsg "not configured" = false ∧
    (objectIdIsValid pid = true →
      (get_product none fail pid).1 = Except.error ⟨500, noneSubscriptableMsg⟩) ∧
    (objectIdIsValid pid = false →
      (get_product none fail pid).1 = Except.error ⟨400, "Invalid id"⟩) := by
  refine ⟨rfl, ?_, by decide, by decide, ?_, ?_⟩
  · have hs : pyExcStr (PyExc.http 500 "Database not configured") =
        "500: Database not configured" := by decide
    simp [create_product, create_product_body, wrap_all, hs]
  · intro hv
    simp [get_product, get_product_body, hv]
  · intro hv
    simp [get_product, get_product_body, hv]

/-- C6 amended witness: both get-by-id branches at concrete identifiers. -/
theorem db_none_behavior_witness :
    objectIdIsValid "000000000000000000000000" = true ∧
    (get_product none none "000000000000000000000000").1 =
      Except.error ⟨500, noneSubscriptableMsg⟩ ∧
    objectIdIsValid "zzz" = false ∧
    (get_product none none "zzz").1 = Except.error ⟨400, "Invalid id"⟩ :=
  ⟨by decide,
   (db_none_behavior demoGen demoProduct none "000000000000000000000000").2.2.2.2.1 (by decide),
   by decide,
   (db_none_behavior demoGen demoProduct none "zzz").2.2.2.2.2 (by decide)⟩

/-- C7: in GET /api/products/{id}, every `HTTPException` raised by the body
(the 400 and the 404) passes through the handler boundary unchanged, and
every non-HTTP failure surfaces as a 500 carrying the failure's message. -/
theorem get_error_propagation (db : Option Coll) (fail : Option String) (pid : String) :
    (∀ s d, (get_product_body db fail pid).1 = Except.error (PyExc.http s d) →
      (get_product db fail pid).1 = Except.error ⟨s, d⟩) ∧
    (∀ m, (get_product_body db fail pid).1 = Except.error (PyExc.generic m) →
      (get_product db fail pid).1 = Except.error ⟨500, m⟩) := by
  rcases hb : get_product_body db fail pid with ⟨r, ops⟩
  constructor
  · intro s d h
    have h2 : r = Except.error (PyExc.http s d) := h
    subst h2
    simp [get_product, hb]
  · intro m h
    have h2 : r = Except.error (PyExc.generic m) := h
    subst h2
    simp [get_product, hb]

/-- C7 witness: the 400 client error passes through unchanged; a transport
failure of the lookup surfaces as a 500 with the failure's message. -/
theorem get_error_propagation_witness :
    (get_product_body none none "abc").1 = Except.error (PyExc.http 400 "Invalid id") ∧
    (get_product none none "abc").1 = Except.error ⟨400, "Invalid id"⟩ ∧
    (get_product_body (some []) (some "boom") "000000000000000000000000").1 =
      Except.error (PyExc.generic "boom") ∧
    (get_product (some []) (some "boom") "000000000000000000000000").1 =
      Except.error ⟨500, "boom"⟩ :=
  ⟨by decide,
   (get_error_propagation none none "abc").1 400 "Invalid id" (by decide),
   by decide,
   (get_error_propagation (some []) (some "boom") "000000000000000000000000").2 "boom" (by decide)⟩

theorem isPrefixOf_append_right {p l : List Char} (l2 : List Char)
    (h : List.isPrefixOf p l = true) : List.isPrefixOf p (l ++ l2) = true := by
  induction p generalizing l with
  | nil => simp [List.isPrefixOf]
  | cons c cs ih =>
    cases l with
    | nil => simp [List.isPrefixOf] at h
    | cons x xs =>
      simp only [List.isPrefixOf, Bool.and_eq_true, beq_iff_eq] at h
      simp only [List.cons_append, List.isPrefixOf, Bool.and_eq_true, beq_iff_eq]
      exact ⟨h.1, ih h.2⟩

theorem indicatesError_append (a b : String) (h : indicatesError a = true) :
    indicatesError (a ++ b) = true := by
  simp only [indicatesError, Bool.or_eq_true] at h ⊢
  have htl : (a ++ b).toList = a.toList ++ b.toList := rfl
  rcases h with h | h
  · exact Or.inl (by rw [htl]; exact isPrefixOf_append_right _ h)
  · exact Or.inr (by rw [htl]; exact isPrefixOf_append_right _ h)

/-- C9: GET /test always returns its report (never an HTTP error); the
report's `database` field is a string that renders an error marker in every
internal-failure mode, and the success string otherwise. -/
theorem test_report_always_ok (w : DbImport) (env : Env) :
    run_test w env = Except.ok (test_database w env) ∧
    ∃ s, docGet (test_database w env) "database" = some (Value.vStr s) ∧
      (dbFailed w = true → indicatesError s = true) ∧
      (dbFailed w = false → s = "✅ Connected & Working") := by
  refine ⟨rfl, ?_⟩
  cases w with
  | importError =>
    refine ⟨"❌ Database module not found (run enable-database first)", ?_,
      fun _ => by decide, fun h => by simp [dbFailed] at h⟩
    show docGet (docSet (docSet (docSet initialReport "database" _) "database_url" _)
      "database_name" _) "database" = _
    rw [docGet_docSet_ne _ _ _ _ (by decide), docGet_docSet_ne _ _ _ _ (by decide)]
    exact docGet_docSet_self _ _ _
  | raised m =>
    refine ⟨"❌ Error: " ++ m.take 50, ?_, fun _ => ?_, fun h => by simp [dbFailed] at h⟩
    · show docGet (docSet (docSet (docSet initialReport "database" _) "database_url" _)
        "database_name" _) "database" = _
      rw [docGet_docSet_ne _ _ _ _ (by decide), docGet_docSet_ne _ _ _ _ (by decide)]
      exact docGet_docSet_self _ _ _
    · exact indicatesError_append "❌ Error: " (m.take 50) (by decide)
  | ok odb =>
    cases odb with
    | none =>
      refine ⟨"⚠️  Available but not initialized", ?_,
        fun _ => by decide, fun h => by simp [dbFailed] at h⟩
      show docGet (docSet (docSet (docSet initialReport "database" _) "database_url" _)
        "database_name" _) "database" = _
      rw [docGet_docSet_ne _ _ _ _ (by decide), docGet_docSet_ne _ _ _ _ (by decide)]
      exact docGet_docSet_self _ _ _
    | some hdl =>
      rcases hdl with ⟨nm, lc⟩
      cases lc with
      | error m =>
        refine ⟨"⚠️  Connected but Error: " ++ m.take 50, ?_, fun _ => ?_,
          fun h => by simp [dbFailed] at h⟩
        · show docGet (docSet (docSet (docSet (docSet (docSet (docSet (docSet
            initialReport "database" _) "database_url" _) "database_name" _)
            "connection_status" _) "database" _) "database_url" _) "database_name" _)
            "database" = _
          rw [docGet_docSet_ne _ _ _ _ (by decide), docGet_docSet_ne _ _ _ _ (by decide)]
          exact docGet_docSet_self _ _ _
        · exact indicatesError_append "⚠️  Connected but Error: " (m.take 50) (by decide)
      | ok cols =>
        refine ⟨"✅ Connected & Working", ?_, fun h => by simp [dbFailed] at h,
          fun _ => rfl⟩
        show docGet (docSet (docSet (docSet (docSet (docSet (docSet (docSet (docSet
          initialReport "database" _) "database_url" _) "database_name" _)
          "connection_status" _) "collections" _) "database" _) "database_url" _)
          "database_name" _) "database" = _
        rw [docGet_docSet_ne _ _ _ _ (by decide), docGet_docSet_ne _ _ _ _ (by decide)]
        exact docGet_docSet_self _ _ _

/-- C9 witness: the module-missing world with no environment variables set. -/
theorem test_report_always_ok_witness :
    ∃ s, docGet (test_database DbImport.importError ⟨false, false⟩) "database" =
        some (Value.vStr s) ∧
      (dbFailed DbImport.importError = true → indicatesError s = true) ∧
      (dbFailed DbImport.importError = false → s = "✅ Connected & Working") :=
  (test_report_always_ok DbImport.importError ⟨false, false⟩).2

/-- C10 counterexample: on a document that already has both `_id` and `id`
fields, `_product_to_dict` overwrites the existing `id` field, so it does
not preserve every field other than `_id`. -/
theorem product_to_dict_overwrites_id :
    docGet (product_to_dict
        [("_id", Value.vOid "0123456789abcdef01234567"), ("id", Value.vStr "original")]) "id" ≠
      docGet [("_id", Value.vOid "0123456789abcdef01234567"), ("id", Value.vStr "original")]
        "id" := by
  decide

/-- C10 amended: `_product_to_dict` preserves every field other than `_id`
and `id` unchanged, and when the `_id` field is absent or falsy it returns
the document as-is (so `_id`, if present, is kept and no `id` is added). -/
theorem product_to_dict_frame (doc : Doc) :
    (∀ k, k ≠ "_id" → k ≠ "id" → docGet (product_to_dict doc) k = docGet doc k) ∧
    (idTruthy doc = false → product_to_dict doc = doc) := by
  constructor
  · intro k hk1 hk2
    cases hid : docGet doc "_id" with
    | none => simp only [product_to_dict, hid]
    | some v =>
      simp only [product_to_dict, hid]
      by_cases ht : truthy v = true
      · rw [if_pos ht, docGet_docSet_ne _ _ _ _ hk2, docGet_docErase_ne _ _ _ hk1]
      · rw [if_neg ht]
  · intro hf
    cases hid : docGet doc "_id" with
    | none => simp only [product_to_dict, hid]
    | some v =>
      have hf2 : truthy v = false := by
        unfold idTruthy at hf
        rw [hid] at hf
        exact hf
      simp only [product_to_dict, hid]
      rw [if_neg (fun hc => by rw [hf2] at hc; exact Bool.noConfusion hc)]

/-- C10 amended witness: a document without `_id` is returned as-is, and an
unrelated field is preserved. -/
theorem product_to_dict_frame_witness :
    (("q" : String) ≠ "_id" ∧ ("q" : String) ≠ "id" ∧
      docGet (product_to_dict [("title", Value.vStr "X")]) "q" =
        docGet [("title", Value.vStr "X")] "q") ∧
    (idTruthy [("title", Value.vStr "X")] = false ∧
      product_to_dict [("title", Value.vStr "X")] = [("title", Value.vStr "X")]) :=
  ⟨⟨by decide, by decide,
     (product_to_dict_frame [("title", Value.vStr "X")]).1 "q" (by decide) (by decide)⟩,
   ⟨by decide, (product_to_dict_frame [("title", Value.vStr "X")]).2 (by decide)⟩⟩

/-- C8 witness: the all-zero identifier against an empty collection. -/
theorem get_absent_404_witness :
    objectIdIsValid "000000000000000000000000" = true ∧
    get_product (some []) none "000000000000000000000000" =
      (Except.error ⟨404, "Not found"⟩,
        [StoreOp.findOp (objectIdOfStr "000000000000000000000000")]) :=
  ⟨by decide, get_absent_404 [] "000000000000000000000000" (by decide) (by simp)⟩

end Backend
